import Mathlib

/-!
Verification development for the vidyaChaitianyaSamakya static site.

The two stateful modules of the repository are shallowly embedded here:

* `src/sw.js` — the service worker (install / activate / fetch handlers);
* `src/assets/js/gallery.js` — the gallery loader, renderer and lightbox.

Browser primitives (the Cache API, `fetch`, the DOM) are modelled by their
standardised, observable behaviour: a cache is an association list from URL
to stored response, a network is a partial function from request to
response, and a DOM container is its serialized `innerHTML` string.
-/

namespace SW

/-- `src/sw.js` line 6: `const CACHE_NAME = 'vcs-v1'`. -/
def CACHE_NAME : String := "vcs-v1"

/-- `src/sw.js` line 7: `const RUNTIME_CACHE = 'vcs-runtime-v1'`. -/
def RUNTIME_CACHE : String := "vcs-runtime-v1"

/-- `src/sw.js` lines 10–19: the fixed precache manifest list. -/
def PRECACHE_ASSETS : List String :=
  ["/", "/index.html", "/assets/css/critical.css", "/assets/css/styles.css",
   "/assets/css/tailwind.css", "/assets/js/common.js", "/assets/js/security.js",
   "/assets/images/vcs-logo.svg"]

/-- The `type` field of a fetch `Response` (Fetch standard): `basic` is a
same-origin, non-opaque response; `cors` is a cross-origin CORS response;
`opaque` / `opaqueredirect` are the tainted kinds. -/
inductive RespType
  | basic
  | cors
  | opaqueResp
  | opaqueredirect
  deriving DecidableEq, Repr

/-- A fetch `Response` as the worker observes it: status code, `type`,
`redirected` flag and body bytes (modelled as a string). -/
structure Response where
  status : Nat
  rtype : RespType
  redirected : Bool
  body : String
  deriving DecidableEq, Repr

/-- A fetch `Request` as the worker observes it: method, absolute URL and
`mode` (`"navigate"` for page navigations). -/
structure Request where
  method : String
  url : String
  mode : String
  deriving DecidableEq, Repr

/-- Cache storage as the worker sees it through `caches.match`: an
association list from request URL to stored response.  `caches.match`
searches every cache generation, so the precache and runtime cache are
modelled as one combined store. -/
abbrev CacheStore : Type := List (String × Response)

/-- `caches.match(request)`: first stored response whose key is the
request URL, if any. -/
def cacheMatch (c : CacheStore) (url : String) : Option Response :=
  (c.find? (fun e => e.1 = url)).map (·.2)

/-- JavaScript `url.startsWith(origin)` (`src/sw.js` line 61), modelled on
the character sequences. -/
def urlStartsWith (url origin : String) : Bool :=
  origin.data.isPrefixOf url.data

/-- Result of the fetch event handler (`src/sw.js` lines 54–100):
either the handler returns without calling `event.respondWith` (the request
passes through to the default network path), or it responds.  A response
records the value handed to `respondWith` (`none` when the promise resolves
to `undefined`), whether `fetch` was invoked for the request, and the list
of `cache.put(request, response)` writes issued into the runtime cache
(fire-and-forget: they are not awaited before the response is returned). -/
inductive FetchOutcome
  | passThrough
  | respond (response : Option Response) (networkUsed : Bool)
      (runtimePuts : List (String × Response))
  deriving DecidableEq, Repr

/-- The fetch event listener of `src/sw.js` lines 54–100, as a function of
the worker origin, the current cache storage, the network's answer for this
request (`none` models a network failure / rejected fetch) and the request.

Line-by-line: non-GET requests return early (line 56); URLs not starting
with the worker origin return early (line 61); otherwise `respondWith` is
called with: the cached response when `caches.match` hits (line 69); else
the network response, cached into `RUNTIME_CACHE` exactly when it is
status 200 with `type === 'basic'` (lines 74–90); on network failure a
navigation request falls back to the cached `/index.html`, any other
request resolves to `undefined` (lines 92–97). -/
def handleFetch (origin : String) (cache : CacheStore) (net : Option Response)
    (req : Request) : FetchOutcome :=
  if req.method ≠ "GET" then .passThrough
  else if ¬ urlStartsWith req.url origin then .passThrough
  else
    match cacheMatch cache req.url with
    | some cachedResponse => .respond (some cachedResponse) false []
    | none =>
      match net with
      | some response =>
        if response.status ≠ 200 ∨ response.rtype ≠ .basic then
          .respond (some response) true []
        else
          .respond (some response) true [(req.url, response)]
      | none =>
        if req.mode = "navigate" then
          .respond (cacheMatch cache "/index.html") true []
        else
          .respond none true []

/-- `Cache.addAll(assets)` per the Cache API (Service Workers standard):
all assets are fetched, and the responses are committed with a single
batch cache operation — it is atomic, so if fetching any asset fails the
returned promise rejects and *no* entry is stored.  `fetchResult` gives the
network's answer per asset URL (`none` = that fetch failed). -/
def addAll (fetchResult : String → Option Response) (assets : List String) :
    Option (List (String × Response)) :=
  if assets.all (fun a => (fetchResult a).isSome) then
    some (assets.filterMap (fun a => (fetchResult a).map (fun r => (a, r))))
  else
    none

/-- Observable outcome of the install event handler: the contents of the
precache generation afterwards, whether the `.catch` logged a cache
failure, and whether the event's `waitUntil` promise settled (install
completed). -/
structure InstallOutcome where
  precache : List (String × Response)
  errorLogged : Bool
  completed : Bool
  deriving DecidableEq, Repr

/-- The install event listener of `src/sw.js` lines 22–34:
`caches.open(CACHE_NAME).then(cache => cache.addAll(PRECACHE_ASSETS))
.catch(error => console.error(...))`.  When `addAll` resolves all assets
are stored; when it rejects the `.catch` logs the error and the chain
resolves anyway, so the event completes in either case. -/
def installHandler (fetchResult : String → Option Response) : InstallOutcome :=
  match addAll fetchResult PRECACHE_ASSETS with
  | some entries => ⟨entries, false, true⟩
  | none => ⟨[], true, true⟩

/-- The cache names remaining after the activate handler's cleanup
(`src/sw.js` lines 37–51): the handler enumerates `caches.keys()` and
deletes every name that is neither `CACHE_NAME` nor `RUNTIME_CACHE`, so
exactly the names equal to one of the two survive. -/
def activateRemaining (cacheNames : List String) : List String :=
  cacheNames.filter (fun n => n = CACHE_NAME ∨ n = RUNTIME_CACHE)

/-- The cache names the activate handler deletes. -/
def activateDeleted (cacheNames : List String) : List String :=
  cacheNames.filter (fun n => ¬ (n = CACHE_NAME ∨ n = RUNTIME_CACHE))

/-- Observable events of one run of the activate handler, for the ordering
claim: the `self.clients.claim()` call, and the settling of each stale
cache deletion. -/
inductive ActivateEv
  | claimCall
  | cacheDeleted (name : String)
  deriving DecidableEq, Repr

/-- Event trace of the activate listener (`src/sw.js` lines 37–51).  The
listener body runs synchronously: `event.waitUntil(caches.keys().then(...))`
only *registers* the deletion promise, and the final statement
`return self.clients.claim()` invokes `claim()` before the handler returns.
The `.then` callback that performs the deletions is a promise reaction,
which the JS event loop runs only after the synchronous body has finished —
so in every execution the `claim()` invocation precedes every deletion
settling. -/
def activateTrace (cacheNames : List String) : List ActivateEv :=
  [ActivateEv.claimCall] ++ (activateDeleted cacheNames).map ActivateEv.cacheDeleted

end SW

namespace Gallery

/-- One manifest entry (`ImageRecord`): `{ path, description, alt?, category? }`
(`src/assets/js/gallery.js`; the manifest consumed by `loadData`).  Optional
fields are `Option String`; JavaScript treats a missing field as `undefined`. -/
structure ImageRecord where
  path : String
  description : String
  alt : Option String
  category : Option String
  deriving DecidableEq, Repr

/-- JavaScript `a || b` on an optional string: `undefined` and the empty
string are falsy, every other string is itself. -/
def jsOr (a : Option String) (b : String) : String :=
  match a with
  | none => b
  | some s => if s = "" then b else s

/-- `escapeHtml` (`gallery.js` lines 69–73): `div.textContent = text;
return div.innerHTML`.  Per the HTML serialization algorithm, reading
`innerHTML` of a text node escapes exactly `&` (to `&amp;`), U+00A0 (to
`&nbsp;`), `<` (to `&lt;`) and `>` (to `&gt;`); all other characters are
unchanged.  Modelled per character. -/
def escapeHtmlChar (c : Char) : List Char :=
  if c = '&' then "&amp;".data
  else if c = ' ' then "&nbsp;".data
  else if c = '<' then "&lt;".data
  else if c = '>' then "&gt;".data
  else [c]

/-- `escapeHtml` on a whole string (see `escapeHtmlChar`). -/
def escapeHtml (text : String) : String :=
  ⟨text.data.foldr (fun c acc => escapeHtmlChar c ++ acc) []⟩

/-- A JavaScript runtime error surfaced by the embedded code. -/
inductive JsError
  | typeError
  deriving DecidableEq, Repr

/-- The error markup `showError` (`gallery.js` lines 80–88) writes into its
container: icon, escaped message, and the fixed manual-reload hint
"Please try refreshing the page.". -/
def showErrorMarkup (message : String) : String :=
  "\n    <div class=\"gallery-error\">\n      <div class=\"gallery-error__icon\" aria-hidden=\"true\">⚠️</div>\n      <p class=\"gallery-error__message\">" ++
    escapeHtml message ++
    "</p>\n      <p class=\"gallery-error__detail\">Please try refreshing the page.</p>\n    </div>\n  "

/-- `showError(container, message)` (`gallery.js` lines 80–88): assigns
`container.innerHTML`.  When `container` is `undefined` (modelled `none`)
the property assignment throws a `TypeError`; otherwise it returns the new
contents of the container. -/
def showError (container : Option String) (message : String) :
    Except JsError String :=
  match container with
  | none => .error .typeError
  | some _ => .ok (showErrorMarkup message)

/-- The manifest fetch response as `loadData` observes it: HTTP status and
the parsed body's `images` field (`none` models a body whose shape has no
`images` array, which `data.images || []` turns into the empty list). -/
structure ManifestResponse where
  status : Nat
  images : Option (List ImageRecord)
  deriving DecidableEq, Repr

/-- `Response.ok` per the Fetch standard: status in the range 200–299. -/
def respOk (r : ManifestResponse) : Bool :=
  200 ≤ r.status ∧ r.status ≤ 299

/-- The two failure kinds of `loadData` (`gallery.js` lines 314–332), the
spec's `HttpError` (carrying the status from
`throw new Error('HTTP error! status: ...')`) and `EmptyDataError`
(`throw new Error('No images found in data')`). -/
inductive LoadError
  | httpError (status : Nat)
  | emptyDataError
  deriving DecidableEq, Repr

/-- `GalleryManager.loadData` (`gallery.js` lines 314–332) as a function of
the single manifest response it fetches (the method performs exactly one
fetch of `CONFIG.dataUrl` and no retry): non-ok status throws the HTTP
error carrying the status; then `this.allImages = data.images || []`; an
empty list throws the no-images error; otherwise the manifest's image
sequence is returned in order. -/
def loadData (r : ManifestResponse) : Except LoadError (List ImageRecord) :=
  if ¬ respOk r then .error (.httpError r.status)
  else
    let allImages := r.images.getD []
    if allImages.length = 0 then .error .emptyDataError
    else .ok allImages

/-- `CATEGORY_LABELS` (`gallery.js` lines 23–40). -/
def CATEGORY_LABELS : List (String × String) :=
  [("all", "All Photos"), ("nmms", "NMMS"),
   ("ideal_persons_awards", "Ideal Persons' Awards"),
   ("talent_test", "Talent Test"), ("act_science_center", "ACT Science Center"),
   ("science_center_visit", "Science Center Visit"),
   ("inauguration", "Inauguration"), ("plantation", "Plantation"),
   ("model_teachers_felicitation", "Model Teachers Felicitation"),
   ("free_classes", "Free Classes"), ("members", "Members"),
   ("news_clippings", "News Clippings"), ("summer_classes", "Summer Classes"),
   ("gurajada_jayanthi", "Gurajada Jayanthi"),
   ("covid_19_services", "COVID-19 Services"),
   ("education_assistance", "Education Assistance")]

/-- `CATEGORY_LABELS[c]` as an optional lookup. -/
def labelOf (c : String) : Option String :=
  (CATEGORY_LABELS.find? (fun e => e.1 = c)).map (·.2)

/-- The markup `createGalleryItem` assigns to `item.innerHTML`
(`gallery.js` lines 415–432): a wrapper with `role="button"`, an
`aria-label` built from the escaped description, a skeleton, the `img` tag
with escaped `src` and escaped `alt` (falling back to the description), an
overlay, and a caption holding the escaped description.  Every
record-derived string is passed through `escapeHtml` in the source. -/
def createGalleryItemHTML (image : ImageRecord) : String :=
  "\n      <div class=\"gallery-item\" \n           role=\"button\"\n           tabindex=\"0\"\n           aria-label=\"View " ++
    escapeHtml image.description ++
    "\"\n           style=\"opacity: 1 !important;\">\n        <div class=\"image-skeleton\"></div>\n        <img \n          src=\"" ++
    escapeHtml image.path ++
    "\" \n          alt=\"" ++
    escapeHtml (jsOr image.alt image.description) ++
    "\"\n          loading=\"lazy\"\n          decoding=\"async\"\n          style=\"opacity: 0; transition: opacity 0.3s ease;\"\n        >\n        <div class=\"gallery-item-overlay\"></div>\n        <div class=\"gallery-item-caption\">" ++
    escapeHtml image.description ++
    "</div>\n      </div>\n    "

/-- Category keys of an image list in first-appearance (manifest) order,
each image keyed by `image.category || 'other'` (`gallery.js` lines
351–358). -/
def categoryKeys (images : List ImageRecord) : List String :=
  images.foldl
    (fun acc img =>
      let c := jsOr img.category "other"
      if c ∈ acc then acc else acc ++ [c])
    []

/-- The images of one category, paired with their original manifest index
(`originalIndex`, `gallery.js` line 357), in manifest order. -/
def imagesOfCategory (images : List ImageRecord) (c : String) :
    List (Nat × ImageRecord) :=
  images.enum.filter (fun e => jsOr e.2.category "other" = c)

/-- The sort-key comparison of `renderGallery` (`gallery.js` lines
361–365): categories ordered by `CATEGORY_LABELS[k] || k`.
`String.localeCompare` is locale dependent; it is modelled as code-point
order, which no theorem below depends on. -/
def labelLE (a b : String) : Bool :=
  (labelOf a).getD a ≤ (labelOf b).getD b

/-- Category keys sorted by label (`gallery.js` lines 361–365). -/
def sortedCategories (images : List ImageRecord) : List String :=
  (categoryKeys images).mergeSort labelLE

/-- The display label of a category header (`gallery.js` line 370):
the label table entry, or the raw key with underscores replaced by spaces
and each word's initial letter upper-cased. -/
def headerLabel (c : String) : String :=
  match labelOf c with
  | some l => l
  | none =>
    let spaced : List Char := c.data.map (fun ch => if ch = '_' then ' ' else ch)
    let rec upWords : List Char → Bool → List Char
      | [], _ => []
      | ch :: rest, atStart =>
        (if atStart then ch.toUpper else ch) :: upWords rest (ch = ' ')
    ⟨upWords spaced true⟩

/-- One category section's markup (`gallery.js` lines 372–394): header
with escaped label and item count, then the grid of item nodes in
manifest order.  As in the source, the `data-category` attribute
interpolates the raw key. -/
def categorySectionHTML (images : List ImageRecord) (c : String) : String :=
  let group := imagesOfCategory images c
  "<div class=\"gallery-category-section\"><div class=\"gallery-category-header\"><h2 class=\"gallery-category-title\"><span>" ++
    escapeHtml (headerLabel c) ++
    "</span><span class=\"gallery-category-count\">" ++
    toString group.length ++
    "</span></h2></div><div class=\"gallery-grid\" data-category=\"" ++ c ++
    "\">" ++ String.join (group.map (fun e => createGalleryItemHTML e.2)) ++
    "</div></div>"

/-- The "No images found" markup of `renderGallery`'s empty branch
(`gallery.js` line 344). -/
def noImagesMarkup : String :=
  "<div class=\"gallery-error\"><div class=\"gallery-error__icon\">⚠️</div><p class=\"gallery-error__message\">No images found</p></div>"

/-- `renderGallery` (`gallery.js` lines 339–399) as the final contents of
the `galleryContainer` element: the empty-list branch writes the
"No images found" state, otherwise the sorted category sections. -/
def renderGalleryHTML (images : List ImageRecord) : String :=
  if images.length = 0 then noImagesMarkup
  else String.join ((sortedCategories images).map (categorySectionHTML images))

/-- Number of `.gallery-item` grid nodes `renderGallery` creates. -/
def renderGalleryItemCount (images : List ImageRecord) : Nat :=
  if images.length = 0 then 0
  else ((sortedCategories images).map
    (fun c => (imagesOfCategory images c).length)).sum

end Gallery

namespace Gallery

/-- `LightboxState`: the mutable fields of `LightboxController`
(`gallery.js` lines 160–176): `currentIndex` and `isOpen`. -/
structure LightboxState where
  currentIndex : Nat
  isOpen : Bool
  deriving DecidableEq, Repr

/-- The constructor state (`gallery.js` lines 163–164):
`currentIndex = 0`, `isOpen = false`. -/
def lightboxInit : LightboxState := ⟨0, false⟩

/-- The index arithmetic of `next()` (`gallery.js` line 265):
`(currentIndex + 1) % images.length`. -/
def nextIndex (n i : Nat) : Nat := (i + 1) % n

/-- The index arithmetic of `previous()` (`gallery.js` line 274):
`(currentIndex - 1 + images.length) % images.length`.  For `i ≥ 0` and
`n ≥ 1` the JavaScript value `i - 1 + n` equals the natural number
`i + n - 1` (no negative intermediate); for `n = 0` both sides of the
correspondence are degenerate and no claim concerns that case. -/
def prevIndex (n i : Nat) : Nat := (i + n - 1) % n

/-- `LightboxController.open(index)` (`gallery.js` lines 218–229): stores
the given index unconditionally and marks the lightbox open. -/
def lightboxOpen (i : Nat) (s : LightboxState) : LightboxState :=
  { s with currentIndex := i, isOpen := true }

/-- `LightboxController.close()` (`gallery.js` lines 234–238): clears
`isOpen`, leaving `currentIndex` untouched. -/
def lightboxClose (s : LightboxState) : LightboxState :=
  { s with isOpen := false }

/-- `LightboxController.next()` (`gallery.js` lines 263–267) over a list
of length `n`. -/
def lightboxNext (n : Nat) (s : LightboxState) : LightboxState :=
  { s with currentIndex := nextIndex n s.currentIndex }

/-- `LightboxController.previous()` (`gallery.js` lines 272–276) over a
list of length `n`. -/
def lightboxPrevious (n : Nat) (s : LightboxState) : LightboxState :=
  { s with currentIndex := prevIndex n s.currentIndex }

/-- The four operations that mutate `LightboxState` (`gallery.js`:
`open` / `next` / `previous` / `close`). -/
inductive LightboxOp
  | openAt (i : Nat)
  | next
  | previous
  | close
  deriving DecidableEq, Repr

/-- One step of the lightbox state machine over a list of length `n`. -/
def lightboxStep (n : Nat) (op : LightboxOp) (s : LightboxState) :
    LightboxState :=
  match op with
  | .openAt i => lightboxOpen i s
  | .next => lightboxNext n s
  | .previous => lightboxPrevious n s
  | .close => lightboxClose s

/-- The `LightboxState` invariant of the data model: whenever the lightbox
is open, `currentIndex` is a valid index into the complete image list. -/
def lightboxInvariant (images : List ImageRecord) (s : LightboxState) : Prop :=
  s.isOpen = true → s.currentIndex < images.length

instance (images : List ImageRecord) (s : LightboxState) :
    Decidable (lightboxInvariant images s) := by
  unfold lightboxInvariant; infer_instance

/-- An operation as the gallery actually issues it: the only call sites of
`open` are the item handlers of `createGalleryItem` (`gallery.js` lines
456–466), which pass the original manifest index of an existing image, so
an issued `open` carries an in-range index. -/
def lightboxOpValid (n : Nat) (op : LightboxOp) : Prop :=
  match op with
  | .openAt i => i < n
  | _ => True

instance (n : Nat) (op : LightboxOp) : Decidable (lightboxOpValid n op) := by
  unfold lightboxOpValid
  match op with
  | .openAt i => infer_instance
  | .next => infer_instance
  | .previous => infer_instance
  | .close => infer_instance

/-- The elements object built by the `GalleryManager` constructor
(`gallery.js` lines 291–293): it has a single `container` property, the
element with id `galleryContainer` (or `undefined` when the page lacks
it, modelled as `none` holding the container's current `innerHTML`). -/
structure GMElements where
  container : Option String
  deriving DecidableEq, Repr

/-- Reading `this.elements.grid` (`gallery.js` line 307): the object built
by the constructor has no `grid` property, so in JavaScript the access
yields `undefined`. -/
def GMElements.grid (_ : GMElements) : Option String := none

/-- Observable result of `GalleryManager.init` (`gallery.js` lines
301–309): the gallery container's final `innerHTML`, the number of
`.gallery-item` grid nodes created, and any error that escaped `init`
(an unhandled promise rejection, since `initGallery` neither awaits nor
handles the returned promise). -/
structure InitResult where
  containerHTML : String
  gridItems : Nat
  unhandled : Option JsError
  deriving DecidableEq, Repr

/-- `GalleryManager.init` (`gallery.js` lines 301–309) on a page whose
gallery container currently holds `containerHTML`: `loadData` then
`renderGallery`; on any load failure the `catch` block calls
`showError(this.elements.grid, 'Failed to load gallery')`, and since
`elements.grid` is `undefined` that call itself throws a `TypeError`,
which escapes `init` — the container is left with its prior contents. -/
def galleryInit (containerHTML : String) (r : ManifestResponse) : InitResult :=
  let elements : GMElements := ⟨some containerHTML⟩
  match loadData r with
  | .ok imgs => ⟨renderGalleryHTML imgs, renderGalleryItemCount imgs, none⟩
  | .error _ =>
    match showError elements.grid "Failed to load gallery" with
    | .ok html => ⟨html, 0, none⟩
    | .error jsErr => ⟨containerHTML, 0, some jsErr⟩

end Gallery

namespace SW

/-- The storage condition of claim C4 as the spec words it, for refinement
comparison with the source condition of `handleFetch`: a "successful
(status 200), non-opaque, non-redirected, same-origin" response (per the
Fetch standard a same-origin, non-opaque response has type `basic`). -/
def specShouldCache (r : Response) : Bool :=
  r.status = 200 ∧ r.rtype ≠ .opaqueResp ∧ r.rtype ≠ .opaqueredirect ∧
    r.redirected = false ∧ r.rtype = .basic

/-- A concrete network where fetching `/index.html` fails and every other
asset fetch yields a 200 basic response. -/
def failIndexFetch : String → Option Response :=
  fun a => if a = "/index.html" then none else some ⟨200, .basic, false, "ok"⟩

end SW

namespace Gallery

/-- Iterating the `next()` index map from a valid index lands on
`(i + k) % n`. -/
theorem nextIndex_iterate (n i : Nat) (hi : i < n) :
    ∀ k, (nextIndex n)^[k] i = (i + k) % n
  | 0 => by simp [Nat.mod_eq_of_lt hi]
  | (k + 1) => by
    rw [Function.iterate_succ_apply', nextIndex_iterate n i hi k]
    show ((i + k) % n + 1) % n = (i + (k + 1)) % n
    rw [← Nat.add_assoc]
    exact (Nat.mod_modEq (i + k) n).add_right 1

/-- Iterating the `previous()` index map from a valid index lands on
`(i + k * (n - 1)) % n`. -/
theorem prevIndex_iterate (n i : Nat) (hn : 1 ≤ n) (hi : i < n) :
    ∀ k, (prevIndex n)^[k] i = (i + k * (n - 1)) % n
  | 0 => by simp [Nat.mod_eq_of_lt hi]
  | (k + 1) => by
    rw [Function.iterate_succ_apply', prevIndex_iterate n i hn hi k]
    show ((i + k * (n - 1)) % n + n - 1) % n = (i + (k + 1) * (n - 1)) % n
    have h1 : (i + k * (n - 1)) % n + n - 1 = (i + k * (n - 1)) % n + (n - 1) := by
      omega
    rw [h1, add_one_mul, ← Nat.add_assoc]
    exact (Nat.mod_modEq (i + k * (n - 1)) n).add_right (n - 1)

/-- Iterating `next()` only rewrites `currentIndex` by the index map. -/
theorem lightboxNext_iterate (n : Nat) (s : LightboxState) :
    ∀ k, (lightboxNext n)^[k] s = ⟨(nextIndex n)^[k] s.currentIndex, s.isOpen⟩
  | 0 => rfl
  | (k + 1) => by
    rw [Function.iterate_succ_apply', Function.iterate_succ_apply',
      lightboxNext_iterate n s k]
    rfl

/-- Iterating `previous()` only rewrites `currentIndex` by the index map. -/
theorem lightboxPrevious_iterate (n : Nat) (s : LightboxState) :
    ∀ k, (lightboxPrevious n)^[k] s =
      ⟨(prevIndex n)^[k] s.currentIndex, s.isOpen⟩
  | 0 => rfl
  | (k + 1) => by
    rw [Function.iterate_succ_apply', Function.iterate_succ_apply',
      lightboxPrevious_iterate n s k]
    rfl

end Gallery

/-- Claim C1: for every GET request whose URL is same-origin and for which
a matching cached response exists, the fetch handler responds with that
cached response exactly as stored (the same `Response` value), performs no
network fetch for the request, and issues no cache write. -/
theorem claim_C1_cache_first (origin : String) (cache : SW.CacheStore)
    (net : Option SW.Response) (req : SW.Request) (r : SW.Response)
    (hm : req.method = "GET") (ho : SW.urlStartsWith req.url origin = true)
    (hc : SW.cacheMatch cache req.url = some r) :
    SW.handleFetch origin cache net req = .respond (some r) false [] := by
  simp [SW.handleFetch, hm, ho, hc]

/-- Witness for C1 at a concrete cache, request and stored response. -/
theorem claim_C1_witness :
    (SW.Request.mk "GET" "https://example.org/a.css" "no-cors").method = "GET" ∧
    SW.urlStartsWith "https://example.org/a.css" "https://example.org" = true ∧
    SW.cacheMatch [("https://example.org/a.css", ⟨200, .basic, false, "abc"⟩)]
      "https://example.org/a.css" = some ⟨200, .basic, false, "abc"⟩ ∧
    SW.handleFetch "https://example.org"
      [("https://example.org/a.css", ⟨200, .basic, false, "abc"⟩)]
      none (SW.Request.mk "GET" "https://example.org/a.css" "no-cors") =
      .respond (some ⟨200, .basic, false, "abc"⟩) false [] :=
  ⟨by decide, by decide, by decide,
   claim_C1_cache_first "https://example.org" _ none _ _ rfl (by decide)
     (by decide)⟩

/-- Claim C3 counterexample: when only the precache generation exists (the
runtime cache has not been created yet — it is only opened lazily by the
fetch handler), the runtime cache name does **not** remain after the
activate cleanup, refuting "exactly the current precache name and the
current runtime cache name remain". -/
theorem claim_C3_counterexample :
    SW.activateRemaining [SW.CACHE_NAME] = [SW.CACHE_NAME] ∧
    SW.RUNTIME_CACHE ∉ SW.activateRemaining [SW.CACHE_NAME] := by
  decide

/-- Claim C3 (amended): after the activate cleanup, a cache name remains
exactly when it existed before and is the current precache or the current
runtime cache name; dually, a name was deleted exactly when it existed and
is neither. -/
theorem claim_C3_amended (cacheNames : List String) (n : String) :
    (n ∈ SW.activateRemaining cacheNames ↔
      n ∈ cacheNames ∧ (n = SW.CACHE_NAME ∨ n = SW.RUNTIME_CACHE)) ∧
    (n ∈ SW.activateDeleted cacheNames ↔
      n ∈ cacheNames ∧ ¬ (n = SW.CACHE_NAME ∨ n = SW.RUNTIME_CACHE)) := by
  constructor
  · simp [SW.activateRemaining, List.mem_filter]
  · simp [SW.activateDeleted, List.mem_filter]

/-- Claim C5: `loadData` fails with the HTTP error carrying the response
status exactly when the status is not ok (outside 200–299); fails with the
empty-data error when the status is ok but the parsed image list — the
manifest's `images` field, or the empty list on any shape mismatch — has
zero entries; and otherwise returns the manifest's image sequence in
order.  The function consumes the single manifest response it fetched: no
retry is modelled because none exists in the source. -/
theorem claim_C5_loadData (r : Gallery.ManifestResponse) :
    (Gallery.respOk r = false →
      Gallery.loadData r = .error (.httpError r.status)) ∧
    (Gallery.respOk r = true → (r.images.getD []).length = 0 →
      Gallery.loadData r = .error .emptyDataError) ∧
    (Gallery.respOk r = true → (r.images.getD []).length ≠ 0 →
      Gallery.loadData r = .ok (r.images.getD [])) := by
  refine ⟨fun h => ?_, fun h h0 => ?_, fun h h0 => ?_⟩
  · simp [Gallery.loadData, h]
  · simp [Gallery.loadData, h, h0]
  · simp [Gallery.loadData, h, h0]

/-- Witness for C5: a 404 response yields the HTTP error with status 404;
an ok response with an empty image list, and an ok response whose body has
no `images` field at all, both yield the empty-data error; an ok response
with one image returns that image list. -/
theorem claim_C5_witness :
    Gallery.loadData ⟨404, some [⟨"p", "d", none, none⟩]⟩ =
      .error (.httpError 404) ∧
    Gallery.loadData ⟨200, some []⟩ = .error .emptyDataError ∧
    Gallery.loadData ⟨200, none⟩ = .error .emptyDataError ∧
    Gallery.loadData ⟨200, some [⟨"p", "d", none, none⟩]⟩ =
      .ok [⟨"p", "d", none, none⟩] :=
  ⟨(claim_C5_loadData _).1 (by decide),
   (claim_C5_loadData _).2.1 (by decide) (by decide),
   (claim_C5_loadData _).2.1 (by decide) (by decide),
   (claim_C5_loadData _).2.2 (by decide) (by decide)⟩

/-- Claim C6: for every image list length `n ≥ 1` and every valid starting
index, applying `next()` `n` times returns the open lightbox to the
starting state, and likewise for `previous()` (wraparound modulo `n`);
instantiating `n = 1` (see the witness) shows both operations are total
and wrap a singleton list to itself. -/
theorem claim_C6_cyclic (n i : Nat) (hn : 1 ≤ n) (hi : i < n) :
    (Gallery.lightboxNext n)^[n] ⟨i, true⟩ = (⟨i, true⟩ : Gallery.LightboxState) ∧
    (Gallery.lightboxPrevious n)^[n] ⟨i, true⟩ =
      (⟨i, true⟩ : Gallery.LightboxState) := by
  constructor
  · rw [Gallery.lightboxNext_iterate]
    show (⟨(Gallery.nextIndex n)^[n] i, true⟩ : Gallery.LightboxState) = _
    rw [Gallery.nextIndex_iterate n i hi n, Nat.add_mod_right,
      Nat.mod_eq_of_lt hi]
  · rw [Gallery.lightboxPrevious_iterate]
    show (⟨(Gallery.prevIndex n)^[n] i, true⟩ : Gallery.LightboxState) = _
    rw [Gallery.prevIndex_iterate n i hn hi n, Nat.add_mul_mod_self_left,
      Nat.mod_eq_of_lt hi]

/-- Witness for C6 at `n = 3, i = 1` and at the singleton list `n = 1`. -/
theorem claim_C6_witness :
    (1 ≤ 3 ∧ 1 < 3 ∧
      (Gallery.lightboxNext 3)^[3] ⟨1, true⟩ =
        (⟨1, true⟩ : Gallery.LightboxState) ∧
      (Gallery.lightboxPrevious 3)^[3] ⟨1, true⟩ =
        (⟨1, true⟩ : Gallery.LightboxState)) ∧
    (1 ≤ 1 ∧ 0 < 1 ∧
      (Gallery.lightboxNext 1)^[1] ⟨0, true⟩ =
        (⟨0, true⟩ : Gallery.LightboxState)) :=
  ⟨⟨by decide, by decide, (claim_C6_cyclic 3 1 (by decide) (by decide)).1,
    (claim_C6_cyclic 3 1 (by decide) (by decide)).2⟩,
   ⟨by decide, by decide, (claim_C6_cyclic 1 0 (by decide) (by decide)).1⟩⟩

namespace SW

/-- A cache store holding an entry for a key matches that key. -/
theorem cacheMatch_isSome (c : CacheStore) (a : String) (r : Response)
    (h : (a, r) ∈ c) : (cacheMatch c a).isSome = true := by
  unfold cacheMatch
  rw [Option.isSome_map']
  rw [List.find?_isSome]
  exact ⟨(a, r), h, by simp⟩

end SW

/-- Claim C2 counterexample: `cache.addAll` is atomic, not best effort.
With a network where only the `/index.html` fetch fails, the whole batch
is rejected: the fetch of `/` succeeded, yet after install `/` is **not**
retrievable from the precache — refuting "the install event still
completes, leaving the remaining assets stored (best effort, not
all-or-nothing)". -/
theorem claim_C2_counterexample :
    SW.failIndexFetch "/" = some ⟨200, .basic, false, "ok"⟩ ∧
    SW.failIndexFetch "/index.html" = none ∧
    (SW.installHandler SW.failIndexFetch).errorLogged = true ∧
    (SW.installHandler SW.failIndexFetch).completed = true ∧
    SW.cacheMatch (SW.installHandler SW.failIndexFetch).precache "/" = none := by
  decide

/-- Claim C2 (amended): after the install event completes (and it always
completes — the `.catch` swallows the failure), every asset of the fixed
precache list is retrievable from the precache or the failure was logged;
but storage is all-or-nothing: when a failure is logged, `addAll` has
stored no asset at all. -/
theorem claim_C2_amended (f : String → Option SW.Response) (a : String)
    (ha : a ∈ SW.PRECACHE_ASSETS) :
    (SW.installHandler f).completed = true ∧
    ((SW.cacheMatch (SW.installHandler f).precache a).isSome = true ∨
      (SW.installHandler f).errorLogged = true) ∧
    ((SW.installHandler f).errorLogged = true →
      (SW.installHandler f).precache = []) := by
  unfold SW.installHandler SW.addAll
  by_cases hall : SW.PRECACHE_ASSETS.all (fun x => (f x).isSome) = true
  · rw [if_pos hall]
    refine ⟨rfl, .inl ?_, fun h => absurd h (by simp)⟩
    have hfa : (f a).isSome = true := List.all_eq_true.mp hall a ha
    obtain ⟨ra, hra⟩ := Option.isSome_iff_exists.mp hfa
    have hmem : (a, ra) ∈ SW.PRECACHE_ASSETS.filterMap
        (fun x => (f x).map (fun r => (x, r))) :=
      List.mem_filterMap.mpr ⟨a, ha, by rw [hra]; rfl⟩
    exact SW.cacheMatch_isSome _ a ra hmem
  · rw [if_neg hall]
    exact ⟨rfl, .inr rfl, fun _ => rfl⟩

/-- Witness for C2 (amended) at a network where every fetch succeeds and
at the asset `/`. -/
theorem claim_C2_witness :
    "/" ∈ SW.PRECACHE_ASSETS ∧
    (SW.installHandler (fun _ => some ⟨200, .basic, false, "ok"⟩)).completed
      = true ∧
    ((SW.cacheMatch
        (SW.installHandler (fun _ => some ⟨200, .basic, false, "ok"⟩)).precache
        "/").isSome = true ∨
      (SW.installHandler (fun _ => some ⟨200, .basic, false, "ok"⟩)).errorLogged
        = true) :=
  ⟨by decide,
   (claim_C2_amended (fun _ => some ⟨200, .basic, false, "ok"⟩) "/"
     (by decide)).1,
   (claim_C2_amended (fun _ => some ⟨200, .basic, false, "ok"⟩) "/"
     (by decide)).2.1⟩

/-- Claim C4 counterexample: the source checks only `status === 200` and
`type === 'basic'` and never consults `response.redirected`, so a
redirected same-origin 200 response **is** stored into the runtime cache,
while the claimed storage condition ("non-redirected") rejects it: the
"if and only if" fails in the only-if direction. -/
theorem claim_C4_counterexample :
    SW.handleFetch "https://example.org" []
      (some ⟨200, .basic, true, "png"⟩)
      ⟨"GET", "https://example.org/assets/x.png", "no-cors"⟩ =
      .respond (some ⟨200, .basic, true, "png"⟩) true
        [("https://example.org/assets/x.png", ⟨200, .basic, true, "png"⟩)] ∧
    SW.specShouldCache ⟨200, .basic, true, "png"⟩ = false := by
  decide

/-- Claim C4 (amended): on a same-origin GET cache miss where the network
yields a response, that response itself is handed to the caller — the
runtime-cache write is a separate fire-and-forget effect, never awaited —
and a write of exactly the response under the request URL is issued if and
only if the response has status 200 and type `basic` (successful,
same-origin, non-opaque); the redirect flag is not consulted. -/
theorem claim_C4_amended (origin : String) (cache : SW.CacheStore)
    (req : SW.Request) (resp : SW.Response)
    (hm : req.method = "GET") (ho : SW.urlStartsWith req.url origin = true)
    (hmiss : SW.cacheMatch cache req.url = none) :
    ∃ puts, SW.handleFetch origin cache (some resp) req =
        .respond (some resp) true puts ∧
      (puts ≠ [] ↔ (resp.status = 200 ∧ resp.rtype = .basic)) ∧
      ∀ p ∈ puts, p = (req.url, resp) := by
  have hbase : SW.handleFetch origin cache (some resp) req =
      if resp.status ≠ 200 ∨ resp.rtype ≠ .basic then
        .respond (some resp) true []
      else .respond (some resp) true [(req.url, resp)] := by
    simp only [SW.handleFetch, hm, ho, hmiss]
    simp
  by_cases hc : resp.status = 200 ∧ resp.rtype = SW.RespType.basic
  · refine ⟨[(req.url, resp)], ?_, ?_, ?_⟩
    · rw [hbase, if_neg (by simp [hc.1, hc.2])]
    · simp [hc]
    · simp
  · refine ⟨[], ?_, ?_, ?_⟩
    · rw [hbase, if_pos (by tauto)]
    · simpa using hc
    · simp

/-- Witness for C4 (amended) at a concrete miss with a 200 basic
response. -/
theorem claim_C4_witness :
    (SW.Request.mk "GET" "https://example.org/assets/x.png" "no-cors").method
      = "GET" ∧
    SW.urlStartsWith "https://example.org/assets/x.png" "https://example.org"
      = true ∧
    SW.cacheMatch [] "https://example.org/assets/x.png" = none ∧
    ∃ puts, SW.handleFetch "https://example.org" []
        (some ⟨200, .basic, false, "png"⟩)
        (SW.Request.mk "GET" "https://example.org/assets/x.png" "no-cors") =
        .respond (some ⟨200, .basic, false, "png"⟩) true puts ∧
      (puts ≠ [] ↔ ((200 : Nat) = 200 ∧ SW.RespType.basic = SW.RespType.basic)) ∧
      ∀ p ∈ puts,
        p = ("https://example.org/assets/x.png", ⟨200, .basic, false, "png"⟩) :=
  ⟨rfl, by decide, rfl,
   claim_C4_amended "https://example.org" [] _ _ rfl (by decide) rfl⟩

/-- Claim C7 evidence (code bug): with an ok manifest whose `images` list
is empty, `loadData` fails with the empty-data error as specified, but
`init`'s catch block then calls `showError(this.elements.grid, ...)` where
`elements.grid` is `undefined` (the constructor only sets `container`), so
`showError` itself throws a `TypeError` instead of rendering: the gallery
container keeps its prior contents — neither the "No images found" state
nor the error-message-with-reload markup appears — zero grid items are
created, and the `TypeError` escapes `init` as an unhandled rejection. -/
theorem claim_C7_code_bug :
    Gallery.loadData ⟨200, some []⟩ = .error .emptyDataError ∧
    Gallery.galleryInit "<div>initial</div>" ⟨200, some []⟩ =
      ⟨"<div>initial</div>", 0, some .typeError⟩ ∧
    (Gallery.galleryInit "<div>initial</div>" ⟨200, some []⟩).containerHTML ≠
      Gallery.noImagesMarkup ∧
    (Gallery.galleryInit "<div>initial</div>" ⟨200, some []⟩).containerHTML ≠
      Gallery.showErrorMarkup "Failed to load gallery" := by
  refine ⟨rfl, rfl, ?_, ?_⟩ <;> decide

/-- Claim C8 counterexample: `open` stores its argument unconditionally
(`gallery.js` line 219) — nothing in it validates the index — so calling
`open 5` over a singleton image list yields `isOpen = true` with
`currentIndex = 5`, an invalid index: `open(i)` does **not** establish the
invariant for every `i` it accepts (it accepts them all). -/
theorem claim_C8_counterexample :
    ¬ Gallery.lightboxInvariant [⟨"p", "d", none, none⟩]
      (Gallery.lightboxOpen 5 Gallery.lightboxInit) := by
  decide

/-- Claim C8 (amended): the lightbox invariant — whenever `isOpen` is
true, `currentIndex` is a valid index into the complete image list — is
preserved by every operation (`open` / `next` / `previous` / `close`)
provided `open` is issued with an in-range index, which is what the only
call sites do (the item handlers pass the original manifest index of an
existing image); `next` and `previous` preserve it by the modulo
wraparound, `close` trivially. -/
theorem claim_C8_invariant (images : List Gallery.ImageRecord)
    (s : Gallery.LightboxState) (op : Gallery.LightboxOp)
    (hinv : Gallery.lightboxInvariant images s)
    (hop : Gallery.lightboxOpValid images.length op) :
    Gallery.lightboxInvariant images
      (Gallery.lightboxStep images.length op s) := by
  cases op with
  | openAt i => intro _; exact hop
  | next =>
    intro h
    have hlt := hinv h
    exact Nat.mod_lt _ (Nat.lt_of_le_of_lt (Nat.zero_le _) hlt)
  | previous =>
    intro h
    have hlt := hinv h
    exact Nat.mod_lt _ (Nat.lt_of_le_of_lt (Nat.zero_le _) hlt)
  | close =>
    intro h
    simp [Gallery.lightboxStep, Gallery.lightboxClose] at h

/-- Witness for C8 (amended): opening a singleton list at index 0 from the
initial state preserves the invariant. -/
theorem claim_C8_witness :
    Gallery.lightboxInvariant [⟨"p", "d", none, none⟩] Gallery.lightboxInit ∧
    Gallery.lightboxOpValid 1 (.openAt 0) ∧
    Gallery.lightboxInvariant [⟨"p", "d", none, none⟩]
      (Gallery.lightboxStep 1 (.openAt 0) Gallery.lightboxInit) :=
  ⟨by decide, by decide,
   claim_C8_invariant [⟨"p", "d", none, none⟩] Gallery.lightboxInit
     (.openAt 0) (by decide) (by decide)⟩

/-- Claim C9 counterexample: with one stale cache generation present, the
activate trace is the `clients.claim()` call **followed by** the deletion
— `claim()` is invoked in the synchronous listener body (its return
statement) while the deletions run in the `waitUntil` promise chain, so
claiming begins before the cleanup has completed, refuting "claiming
happens only after activation as a whole settles". -/
theorem claim_C9_counterexample :
    SW.activateTrace ["vcs-v0"] =
      [SW.ActivateEv.claimCall, SW.ActivateEv.cacheDeleted "vcs-v0"] ∧
    (SW.activateTrace ["vcs-v0"]).indexOf SW.ActivateEv.claimCall <
      (SW.activateTrace ["vcs-v0"]).indexOf
        (SW.ActivateEv.cacheDeleted "vcs-v0") := by
  decide

/-- Claim C9 (amended): `clients.claim()` is invoked synchronously when
the activate listener runs — it is the first event of every activate
trace — and every stale-cache deletion settles strictly after it (the
deletions are awaited by `waitUntil`, but claiming is not sequenced after
them). -/
theorem claim_C9_amended (cacheNames : List String) (name : String)
    (h : name ∈ SW.activateDeleted cacheNames) :
    (SW.activateTrace cacheNames).indexOf SW.ActivateEv.claimCall = 0 ∧
    0 < (SW.activateTrace cacheNames).indexOf
      (SW.ActivateEv.cacheDeleted name) ∧
    SW.ActivateEv.cacheDeleted name ∈ SW.activateTrace cacheNames := by
  refine ⟨?_, ?_, ?_⟩
  · exact List.indexOf_cons_self _ _
  · show 0 < (SW.ActivateEv.claimCall ::
      (SW.activateDeleted cacheNames).map SW.ActivateEv.cacheDeleted).indexOf
        (SW.ActivateEv.cacheDeleted name)
    rw [List.indexOf_cons_ne _ (by simp)]
    exact Nat.succ_pos _
  · exact List.mem_cons_of_mem _ (List.mem_map_of_mem _ h)

/-- Witness for C9 (amended) at one stale generation. -/
theorem claim_C9_witness :
    "vcs-v0" ∈ SW.activateDeleted ["vcs-v0"] ∧
    (SW.activateTrace ["vcs-v0"]).indexOf SW.ActivateEv.claimCall = 0 ∧
    0 < (SW.activateTrace ["vcs-v0"]).indexOf
      (SW.ActivateEv.cacheDeleted "vcs-v0") :=
  ⟨by decide,
   (claim_C9_amended ["vcs-v0"] "vcs-v0" (by decide)).1,
   (claim_C9_amended ["vcs-v0"] "vcs-v0" (by decide)).2.1⟩

namespace Gallery

/-- The escape of a single character never contains a raw angle bracket:
each branch of `escapeHtmlChar` yields either a bracket-free entity or a
character distinct from both brackets. -/
theorem escapeHtmlChar_count_lt (c : Char) : (escapeHtmlChar c).count '<' = 0 := by
  unfold escapeHtmlChar
  split
  next => decide
  next =>
    split
    next => decide
    next =>
      split
      next => decide
      next =>
        split
        next => decide
        next _ _ h _ =>
          rw [List.count_eq_zero]
          intro hmem
          exact h (List.mem_singleton.mp hmem).symm

/-- Companion to `escapeHtmlChar_count_lt` for the closing bracket. -/
theorem escapeHtmlChar_count_gt (c : Char) : (escapeHtmlChar c).count '>' = 0 := by
  unfold escapeHtmlChar
  split
  next => decide
  next =>
    split
    next => decide
    next =>
      split
      next => decide
      next =>
        split
        next => decide
        next _ _ _ h =>
          rw [List.count_eq_zero]
          intro hmem
          exact h (List.mem_singleton.mp hmem).symm

/-- Lifting a per-character zero count through the escaping fold. -/
theorem escapeFold_count (a : Char) (ha : ∀ c, (escapeHtmlChar c).count a = 0) :
    ∀ l : List Char,
      (l.foldr (fun c acc => escapeHtmlChar c ++ acc) []).count a = 0
  | [] => rfl
  | c :: l => by
    rw [List.foldr_cons, List.count_append, ha c, escapeFold_count a ha l]

/-- `escapeHtml` output never contains a raw `<`. -/
theorem escapeHtml_count_lt (s : String) : (escapeHtml s).data.count '<' = 0 :=
  escapeFold_count '<' escapeHtmlChar_count_lt s.data

/-- `escapeHtml` output never contains a raw `>`. -/
theorem escapeHtml_count_gt (s : String) : (escapeHtml s).data.count '>' = 0 :=
  escapeFold_count '>' escapeHtmlChar_count_gt s.data

end Gallery

/-- Claim C10: every manifest-record string interpolated into the item
markup — the path (`src`), the alt text, and the description (both in the
`aria-label` and in the caption) — is passed through `escapeHtml` in
`createGalleryItem` (visible in the definition of
`createGalleryItemHTML`), and since escaped output never contains a raw
`<` or `>`, no record can introduce new tags: the count of `<` and of `>`
in the generated markup equals that of the fixed template, here computed
on the record with all fields empty. -/
theorem claim_C10_escaping (image : Gallery.ImageRecord) :
    (Gallery.createGalleryItemHTML image).data.count '<' =
      (Gallery.createGalleryItemHTML ⟨"", "", none, none⟩).data.count '<' ∧
    (Gallery.createGalleryItemHTML image).data.count '>' =
      (Gallery.createGalleryItemHTML ⟨"", "", none, none⟩).data.count '>' := by
  constructor
  · simp only [Gallery.createGalleryItemHTML, String.data_append,
      List.count_append, Gallery.escapeHtml_count_lt]
  · simp only [Gallery.createGalleryItemHTML, String.data_append,
      List.count_append, Gallery.escapeHtml_count_gt]
